import Mathlib

/-!
Shallow embedding of the portfolio weight optimizer from
`src/lib/server-database-operations.ts` (class `QuantumPortfolioOptimizer`),
with theorems checking the natural-language specification against it.
JavaScript numbers are modelled as real numbers; array indexing `a[i]`
is modelled with `List.getD` (out-of-range reads never occur on the
executed paths).
-/

namespace QuantumApp

/-- An asset as consumed by the optimizer: `{symbol, name, expectedReturn, volatility, price}`. -/
structure Asset where
  symbol : String
  name : String
  expectedReturn : ℝ
  volatility : ℝ
  price : ℝ

/-- The constraints argument `{ minWeight?: number; maxWeight?: number }`;
`none` models an absent field. -/
structure Constraints where
  minWeight : Option ℝ
  maxWeight : Option ℝ

/-- The `OptimizationResult` record returned by the optimizer. -/
structure OptimizationResult where
  optimalWeights : List ℝ
  expectedReturn : ℝ
  volatility : ℝ
  sharpeRatio : ℝ
  convergenceData : List ℝ
  iterations : ℕ

/-- The metrics triple returned by `calculatePortfolioMetrics`. -/
structure PortfolioMetrics where
  expectedReturn : ℝ
  volatility : ℝ
  sharpeRatio : ℝ

/-- The private fields of class `QuantumPortfolioOptimizer`. -/
structure QuantumPortfolioOptimizer where
  riskFreeRate : ℝ
  maxIterations : ℕ
  tolerance : ℝ

/-- The class constructor: `if (riskFreeRate) this.riskFreeRate = riskFreeRate;
if (maxIterations) this.maxIterations = maxIterations`.  A missing argument is
`none`; a supplied `0` is falsy in JavaScript, so the default survives. -/
noncomputable def mkQuantumPortfolioOptimizer (riskFreeRate : Option ℝ)
    (maxIterations : Option ℕ) : QuantumPortfolioOptimizer where
  riskFreeRate :=
    match riskFreeRate with
    | none => 0.02
    | some r => if r = 0 then 0.02 else r
  maxIterations :=
    match maxIterations with
    | none => 100
    | some m => if m = 0 then 100 else m
  tolerance := 1e-6

/-- The only error thrown by `optimizePortfolio`:
`new Error("Portfolio must contain at least 2 assets")`. -/
inductive OptimizerError where
  | invalidInput : String → OptimizerError

/-- The method `calculateCovarianceMatrix`: `cov[i][j] = volatility_i^2` on the
diagonal, `0.3 * volatility_i * volatility_j` off it, built as an n×n array. -/
noncomputable def calculateCovarianceMatrix (assets : List Asset) : List (List ℝ) :=
  let n := assets.length
  let vols := assets.map Asset.volatility
  (List.range n).map fun i =>
    (List.range n).map fun j =>
      if i = j then (vols.getD i 0) ^ 2 else 0.3 * vols.getD i 0 * vols.getD j 0

/-- The reduce `weights.reduce((sum, w, i) => sum + w * expectedReturns[i], 0)`. -/
noncomputable def portfolioReturn (weights expectedReturns : List ℝ) : ℝ :=
  ((List.range weights.length).map fun i =>
    weights.getD i 0 * expectedReturns.getD i 0).sum

/-- The double loop accumulating `weights[i] * weights[j] * covMatrix[i][j]`. -/
noncomputable def portfolioVariance (weights : List ℝ) (covMatrix : List (List ℝ)) : ℝ :=
  ((List.range weights.length).map fun i =>
    ((List.range weights.length).map fun j =>
      weights.getD i 0 * weights.getD j 0 * (covMatrix.getD i []).getD j 0).sum).sum

/-- The local `portfolioVolatility = Math.sqrt(portfolioVariance)` computed in
each of the evaluator methods. -/
noncomputable def portfolioVolatility (weights : List ℝ) (covMatrix : List (List ℝ)) : ℝ :=
  Real.sqrt (portfolioVariance weights covMatrix)

/-- The method `objectiveFunction`: the negated Sharpe ratio
`-(R - riskFreeRate) / sigma`. -/
noncomputable def objectiveFunction (riskFreeRate : ℝ) (weights expectedReturns : List ℝ)
    (covMatrix : List (List ℝ)) : ℝ :=
  -((portfolioReturn weights expectedReturns - riskFreeRate) /
    portfolioVolatility weights covMatrix)

/-- The method `calculateGradients`: component `i` is
`-(r_i * sigma - (R - rf) * (varianceGradient / (2 sigma))) / sigma^2` with
`varianceGradient = sum_j 2 * w_j * cov[i][j]`. -/
noncomputable def calculateGradients (riskFreeRate : ℝ) (weights expectedReturns : List ℝ)
    (covMatrix : List (List ℝ)) : List ℝ :=
  let n := weights.length
  let pr := portfolioReturn weights expectedReturns
  let pv := portfolioVolatility weights covMatrix
  (List.range n).map fun i =>
    let returnGradient := expectedReturns.getD i 0
    let varianceGradient :=
      ((List.range n).map fun j =>
        2 * weights.getD j 0 * (covMatrix.getD i []).getD j 0).sum
    let volatilityGradient := varianceGradient / (2 * pv)
    let numerator := returnGradient * pv - (pr - riskFreeRate) * volatilityGradient
    let denominator := pv ^ 2
    let gradientI := -(numerator / denominator)
    gradientI

/-- The effective lower bound `constraints.minWeight || 0`: an absent field or a
falsy `0` both give `0`. -/
noncomputable def effMinWeight (c : Constraints) : ℝ :=
  match c.minWeight with
  | none => 0
  | some x => if x = 0 then 0 else x

/-- The effective upper bound `constraints.maxWeight || 1`: an absent field or a
falsy `0` both give the default `1`. -/
noncomputable def effMaxWeight (c : Constraints) : ℝ :=
  match c.maxWeight with
  | none => 1
  | some x => if x = 0 then 1 else x

/-- The `newWeights` array of one loop pass of `quantumOptimization`: the
gradient step with adaptive learning rate, clipped into `[minW, maxW]`
componentwise (`Math.max(minWeight, Math.min(maxWeight, update))`). -/
noncomputable def clippedCandidates (riskFreeRate : ℝ) (expectedReturns : List ℝ)
    (covMatrix : List (List ℝ)) (minW maxW : ℝ) (iteration : ℕ)
    (weights : List ℝ) : List ℝ :=
  let learningRate := 0.01 * Real.exp (-(iteration : ℝ) / 50)
  let gradients := calculateGradients riskFreeRate weights expectedReturns covMatrix
  (List.range weights.length).map fun i =>
    max minW (min maxW (weights.getD i 0 - learningRate * gradients.getD i 0))

/-- One pass of the loop body of `quantumOptimization` acting on the weights:
the clipped gradient step followed by `newWeights.map((w) => w / sum)`. -/
noncomputable def stepWeights (riskFreeRate : ℝ) (expectedReturns : List ℝ)
    (covMatrix : List (List ℝ)) (minW maxW : ℝ) (iteration : ℕ)
    (weights : List ℝ) : List ℝ :=
  let newWeights := clippedCandidates riskFreeRate expectedReturns covMatrix minW maxW
    iteration weights
  newWeights.map fun w => w / newWeights.sum

/-- The `for (let iteration = 0; iteration < maxIterations; iteration++)` loop of
`quantumOptimization`, as a recursion on the remaining passes.  It returns the
final weights together with the `convergenceData` entries pushed from this
point on; the `break` fires when the objective moved by less than `tolerance`. -/
noncomputable def optimizationLoop (riskFreeRate tolerance : ℝ)
    (expectedReturns : List ℝ) (covMatrix : List (List ℝ)) (minW maxW : ℝ) :
    ℕ → ℕ → List ℝ → List ℝ × List ℝ
  | _, 0, weights => (weights, [])
  | iteration, fuel + 1, weights =>
    let currentObjective := objectiveFunction riskFreeRate weights expectedReturns covMatrix
    let newWeights := stepWeights riskFreeRate expectedReturns covMatrix minW maxW iteration weights
    let newObjective := objectiveFunction riskFreeRate newWeights expectedReturns covMatrix
    if |newObjective - currentObjective| < tolerance then
      (newWeights, [-currentObjective])
    else
      ((optimizationLoop riskFreeRate tolerance expectedReturns covMatrix minW maxW
          (iteration + 1) fuel newWeights).1,
       -currentObjective ::
        (optimizationLoop riskFreeRate tolerance expectedReturns covMatrix minW maxW
          (iteration + 1) fuel newWeights).2)

/-- The method `quantumOptimization`: uniform initialization, the bounded
descent loop, then the final metrics; `iterations` is
`convergenceData.length`. -/
noncomputable def quantumOptimization (opt : QuantumPortfolioOptimizer)
    (assets : List Asset) (constraints : Constraints) : OptimizationResult :=
  let n := assets.length
  let expectedReturns := assets.map Asset.expectedReturn
  let covMatrix := calculateCovarianceMatrix assets
  let weights0 : List ℝ := List.replicate n ((1 : ℝ) / n)
  let minW := effMinWeight constraints
  let maxW := effMaxWeight constraints
  let res := optimizationLoop opt.riskFreeRate opt.tolerance expectedReturns covMatrix
    minW maxW 0 opt.maxIterations weights0
  let pr := portfolioReturn res.1 expectedReturns
  let pv := portfolioVolatility res.1 covMatrix
  { optimalWeights := res.1
    expectedReturn := pr
    volatility := pv
    sharpeRatio := (pr - opt.riskFreeRate) / pv
    convergenceData := res.2
    iterations := res.2.length }

/-- The method `optimizePortfolio`: throws `InvalidInput` for fewer than 2
assets, otherwise runs `quantumOptimization`. -/
noncomputable def optimizePortfolio (opt : QuantumPortfolioOptimizer)
    (assets : List Asset) (constraints : Constraints) :
    Except OptimizerError OptimizationResult :=
  if assets.length < 2 then
    .error (.invalidInput "Portfolio must contain at least 2 assets")
  else
    .ok (quantumOptimization opt assets constraints)

/-- The method `calculatePortfolioMetrics`: recomputes return, volatility and
Sharpe ratio for an arbitrary caller-supplied weight vector. -/
noncomputable def calculatePortfolioMetrics (opt : QuantumPortfolioOptimizer)
    (assets : List Asset) (weights : List ℝ) : PortfolioMetrics :=
  let expectedReturns := assets.map Asset.expectedReturn
  let covMatrix := calculateCovarianceMatrix assets
  let pr := portfolioReturn weights expectedReturns
  let pv := portfolioVolatility weights covMatrix
  { expectedReturn := pr
    volatility := pv
    sharpeRatio := (pr - opt.riskFreeRate) / pv }

/-- The iterated loop step: `weightsAfter ... iteration weights k` is the weight
vector at the start of loop pass `iteration + k` when pass `iteration` starts
at `weights`.  Derived bookkeeping used to state trace properties. -/
noncomputable def weightsAfter (riskFreeRate : ℝ) (expectedReturns : List ℝ)
    (covMatrix : List (List ℝ)) (minW maxW : ℝ) (iteration : ℕ)
    (weights : List ℝ) : ℕ → List ℝ
  | 0 => weights
  | k + 1 =>
    weightsAfter riskFreeRate expectedReturns covMatrix minW maxW (iteration + 1)
      (stepWeights riskFreeRate expectedReturns covMatrix minW maxW iteration weights) k

/-- The optimizer trajectory for a given call: `trajectory opt assets cons k`
is the weight vector at the start of loop pass `k`, starting from the uniform
initialization. -/
noncomputable def trajectory (opt : QuantumPortfolioOptimizer) (assets : List Asset)
    (cons : Constraints) : ℕ → List ℝ :=
  weightsAfter opt.riskFreeRate (assets.map Asset.expectedReturn)
    (calculateCovarianceMatrix assets) (effMinWeight cons) (effMaxWeight cons) 0
    (List.replicate assets.length ((1 : ℝ) / assets.length))

/-! Helper lemmas about list indexing and sums. -/

lemma getD_map_range {α : Type} (f : ℕ → α) (n i : ℕ) (d : α) :
    ((List.range n).map f).getD i d = if i < n then f i else d := by
  rcases lt_or_ge i n with h | h
  · rw [List.getD_eq_getElem?_getD, List.getElem?_map, List.getElem?_range h]
    simp [h]
  · rw [List.getD_eq_default, if_neg (Nat.not_lt.mpr h)]
    simpa using h

lemma sum_map_div (l : List ℝ) (s : ℝ) :
    (l.map fun x => x / s).sum = l.sum / s := by
  simp only [div_eq_mul_inv]
  simpa using List.sum_map_mul_right l id s⁻¹

lemma sum_pos_of_forall_le (l : List ℝ) (m : ℝ) (hm : 0 < m) (hne : l ≠ [])
    (h : ∀ x ∈ l, m ≤ x) : 0 < l.sum := by
  cases l with
  | nil => exact absurd rfl hne
  | cons a t =>
    have ha : m ≤ a := h a (List.mem_cons_self a t)
    have ht : 0 ≤ t.sum :=
      List.sum_nonneg fun x hx => le_trans hm.le (h x (List.mem_cons_of_mem a hx))
    simpa using add_pos_of_pos_of_nonneg (lt_of_lt_of_le hm ha) ht

/-! Helper lemmas about one loop pass. -/

lemma clippedCandidates_length (rf : ℝ) (rets : List ℝ) (cov : List (List ℝ))
    (minW maxW : ℝ) (it : ℕ) (w : List ℝ) :
    (clippedCandidates rf rets cov minW maxW it w).length = w.length := by
  simp [clippedCandidates]

lemma stepWeights_length (rf : ℝ) (rets : List ℝ) (cov : List (List ℝ))
    (minW maxW : ℝ) (it : ℕ) (w : List ℝ) :
    (stepWeights rf rets cov minW maxW it w).length = w.length := by
  simp [stepWeights, clippedCandidates]

lemma stepWeights_sum (rf : ℝ) (rets : List ℝ) (cov : List (List ℝ))
    (minW maxW : ℝ) (it : ℕ) (w : List ℝ) (hmin : 0 < minW) (hw : w ≠ []) :
    (stepWeights rf rets cov minW maxW it w).sum = 1 := by
  have hall : ∀ x ∈ clippedCandidates rf rets cov minW maxW it w, minW ≤ x := by
    intro x hx
    simp only [clippedCandidates, List.mem_map] at hx
    obtain ⟨i, _, rfl⟩ := hx
    exact le_max_left _ _
  have hne : clippedCandidates rf rets cov minW maxW it w ≠ [] := by
    intro hnil
    have := clippedCandidates_length rf rets cov minW maxW it w
    rw [hnil] at this
    exact hw (List.eq_nil_of_length_eq_zero this.symm)
  have hs : 0 < (clippedCandidates rf rets cov minW maxW it w).sum :=
    sum_pos_of_forall_le _ minW hmin hne hall
  rw [stepWeights, sum_map_div]
  exact div_self (ne_of_gt hs)

/-! Helper lemmas about the optimization loop. -/

lemma optimizationLoop_zero (rf tol : ℝ) (rets : List ℝ) (cov : List (List ℝ))
    (minW maxW : ℝ) (it : ℕ) (w : List ℝ) :
    optimizationLoop rf tol rets cov minW maxW it 0 w = (w, []) := rfl

lemma optimizationLoop_succ (rf tol : ℝ) (rets : List ℝ) (cov : List (List ℝ))
    (minW maxW : ℝ) (it fuel : ℕ) (w : List ℝ) :
    optimizationLoop rf tol rets cov minW maxW it (fuel + 1) w =
      if |objectiveFunction rf (stepWeights rf rets cov minW maxW it w) rets cov -
          objectiveFunction rf w rets cov| < tol then
        (stepWeights rf rets cov minW maxW it w, [-(objectiveFunction rf w rets cov)])
      else
        ((optimizationLoop rf tol rets cov minW maxW (it + 1) fuel
            (stepWeights rf rets cov minW maxW it w)).1,
         -(objectiveFunction rf w rets cov) ::
          (optimizationLoop rf tol rets cov minW maxW (it + 1) fuel
            (stepWeights rf rets cov minW maxW it w)).2) := rfl

lemma weightsAfter_zero (rf : ℝ) (rets : List ℝ) (cov : List (List ℝ))
    (minW maxW : ℝ) (it : ℕ) (w : List ℝ) :
    weightsAfter rf rets cov minW maxW it w 0 = w := rfl

lemma weightsAfter_succ_left (rf : ℝ) (rets : List ℝ) (cov : List (List ℝ))
    (minW maxW : ℝ) (it : ℕ) (w : List ℝ) (k : ℕ) :
    weightsAfter rf rets cov minW maxW it w (k + 1) =
      weightsAfter rf rets cov minW maxW (it + 1)
        (stepWeights rf rets cov minW maxW it w) k := rfl

lemma weightsAfter_succ_right (rf : ℝ) (rets : List ℝ) (cov : List (List ℝ))
    (minW maxW : ℝ) (it : ℕ) (w : List ℝ) (k : ℕ) :
    weightsAfter rf rets cov minW maxW it w (k + 1) =
      stepWeights rf rets cov minW maxW (it + k)
        (weightsAfter rf rets cov minW maxW it w k) := by
  induction k generalizing it w with
  | zero => simp [weightsAfter_succ_left, weightsAfter_zero]
  | succ k ih =>
    rw [weightsAfter_succ_left, ih, weightsAfter_succ_left]
    have harith : it + 1 + k = it + (k + 1) := by omega
    rw [harith]

lemma optimizationLoop_fst (rf tol : ℝ) (rets : List ℝ) (cov : List (List ℝ))
    (minW maxW : ℝ) :
    ∀ (fuel it : ℕ) (w : List ℝ),
      (optimizationLoop rf tol rets cov minW maxW it fuel w).1 =
        weightsAfter rf rets cov minW maxW it w
          (optimizationLoop rf tol rets cov minW maxW it fuel w).2.length := by
  intro fuel
  induction fuel with
  | zero => intro it w; rfl
  | succ fuel ih =>
    intro it w
    rw [optimizationLoop_succ]
    by_cases h : |objectiveFunction rf (stepWeights rf rets cov minW maxW it w) rets cov -
        objectiveFunction rf w rets cov| < tol
    · rw [if_pos h]
      rfl
    · rw [if_neg h]
      simp only [List.length_cons]
      rw [weightsAfter_succ_left]
      exact ih (it + 1) (stepWeights rf rets cov minW maxW it w)

lemma optimizationLoop_snd (rf tol : ℝ) (rets : List ℝ) (cov : List (List ℝ))
    (minW maxW : ℝ) :
    ∀ (fuel it : ℕ) (w : List ℝ),
      (optimizationLoop rf tol rets cov minW maxW it fuel w).2 =
        (List.range (optimizationLoop rf tol rets cov minW maxW it fuel w).2.length).map
          fun k => -(objectiveFunction rf
            (weightsAfter rf rets cov minW maxW it w k) rets cov) := by
  intro fuel
  induction fuel with
  | zero => intro it w; rfl
  | succ fuel ih =>
    intro it w
    rw [optimizationLoop_succ]
    by_cases h : |objectiveFunction rf (stepWeights rf rets cov minW maxW it w) rets cov -
        objectiveFunction rf w rets cov| < tol
    · rw [if_pos h]
      rfl
    · rw [if_neg h]
      simp only [List.length_cons, List.range_succ_eq_map, List.map_cons, List.map_map]
      exact List.cons_eq_cons.mpr
        ⟨rfl, ih (it + 1) (stepWeights rf rets cov minW maxW it w)⟩

lemma optimizationLoop_len (rf tol : ℝ) (rets : List ℝ) (cov : List (List ℝ))
    (minW maxW : ℝ) :
    ∀ (fuel it : ℕ) (w : List ℝ),
      (optimizationLoop rf tol rets cov minW maxW it fuel w).2.length ≤ fuel := by
  intro fuel
  induction fuel with
  | zero => intro it w; simp [optimizationLoop_zero]
  | succ fuel ih =>
    intro it w
    rw [optimizationLoop_succ]
    by_cases h : |objectiveFunction rf (stepWeights rf rets cov minW maxW it w) rets cov -
        objectiveFunction rf w rets cov| < tol
    · rw [if_pos h]
      simp
    · rw [if_neg h]
      simpa using ih (it + 1) (stepWeights rf rets cov minW maxW it w)

lemma optimizationLoop_sum (rf tol : ℝ) (rets : List ℝ) (cov : List (List ℝ))
    (minW maxW : ℝ) (hmin : 0 < minW) :
    ∀ (fuel it : ℕ) (w : List ℝ), w ≠ [] → w.sum = 1 →
      (optimizationLoop rf tol rets cov minW maxW it fuel w).1.sum = 1 ∧
      (optimizationLoop rf tol rets cov minW maxW it fuel w).1.length = w.length := by
  intro fuel
  induction fuel with
  | zero => intro it w _ hsum; exact ⟨hsum, rfl⟩
  | succ fuel ih =>
    intro it w hne hsum
    rw [optimizationLoop_succ]
    by_cases h : |objectiveFunction rf (stepWeights rf rets cov minW maxW it w) rets cov -
        objectiveFunction rf w rets cov| < tol
    · rw [if_pos h]
      exact ⟨stepWeights_sum rf rets cov minW maxW it w hmin hne,
        stepWeights_length rf rets cov minW maxW it w⟩
    · rw [if_neg h]
      have hlen := stepWeights_length rf rets cov minW maxW it w
      have hne2 : stepWeights rf rets cov minW maxW it w ≠ [] := by
        intro hnil
        rw [hnil] at hlen
        exact hne (List.eq_nil_of_length_eq_zero hlen.symm)
      have hsum2 := stepWeights_sum rf rets cov minW maxW it w hmin hne
      obtain ⟨h1, h2⟩ := ih (it + 1) (stepWeights rf rets cov minW maxW it w) hne2 hsum2
      exact ⟨h1, h2.trans hlen⟩

/-! Helper lemmas at the level of the exported operations. -/

lemma optimizePortfolio_eq_ok (opt : QuantumPortfolioOptimizer) (assets : List Asset)
    (cons : Constraints) (h : 2 ≤ assets.length) :
    optimizePortfolio opt assets cons =
      Except.ok (quantumOptimization opt assets cons) := by
  rw [optimizePortfolio, if_neg (Nat.not_lt.mpr h)]

lemma replicate_uniform_sum (n : ℕ) (hn : 0 < n) :
    (List.replicate n ((1 : ℝ) / n)).sum = 1 := by
  rw [List.sum_replicate, nsmul_eq_mul]
  rw [mul_one_div, div_self]
  exact Nat.cast_ne_zero.mpr hn.ne'

lemma quantumOptimization_sum_len (opt : QuantumPortfolioOptimizer) (assets : List Asset)
    (cons : Constraints) (hn : 2 ≤ assets.length) (hmin : 0 < effMinWeight cons) :
    (quantumOptimization opt assets cons).optimalWeights.sum = 1 ∧
    (quantumOptimization opt assets cons).optimalWeights.length = assets.length := by
  have hpos : 0 < assets.length := lt_of_lt_of_le (by norm_num) hn
  have hrep_ne : List.replicate assets.length ((1 : ℝ) / assets.length) ≠ [] := by
    simp only [ne_eq, List.replicate_eq_nil_iff]
    omega
  have hrep_sum := replicate_uniform_sum assets.length hpos
  have hmain := optimizationLoop_sum opt.riskFreeRate opt.tolerance
    (assets.map Asset.expectedReturn) (calculateCovarianceMatrix assets)
    (effMinWeight cons) (effMaxWeight cons) hmin opt.maxIterations 0
    (List.replicate assets.length ((1 : ℝ) / assets.length)) hrep_ne hrep_sum
  refine ⟨hmain.1, ?_⟩
  rw [show (quantumOptimization opt assets cons).optimalWeights.length =
    (List.replicate assets.length ((1 : ℝ) / assets.length)).length from hmain.2]
  simp

lemma sum_eq_getD_of_length_two (l : List ℝ) (hl : l.length = 2) :
    l.sum = l.getD 0 0 + l.getD 1 0 := by
  obtain ⟨a, b, rfl⟩ := List.length_eq_two.mp hl
  simp

lemma covariance_entry (assets : List Asset) (i j : ℕ) :
    ((calculateCovarianceMatrix assets).getD i []).getD j 0 =
      if i = j then ((assets.map Asset.volatility).getD i 0) ^ 2
      else 0.3 * (assets.map Asset.volatility).getD i 0 *
        (assets.map Asset.volatility).getD j 0 := by
  simp only [calculateCovarianceMatrix]
  rw [getD_map_range]
  by_cases hi : i < assets.length
  · rw [if_pos hi, getD_map_range]
    by_cases hj : j < assets.length
    · rw [if_pos hj]
    · rw [if_neg hj]
      have hij : i ≠ j := by omega
      have hvj : (assets.map Asset.volatility).getD j 0 = 0 := by
        apply List.getD_eq_default
        simpa using Nat.not_lt.mp hj
      rw [if_neg hij, hvj, mul_zero]
  · rw [if_neg hi]
    have hvi : (assets.map Asset.volatility).getD i 0 = 0 := by
      apply List.getD_eq_default
      simpa using Nat.not_lt.mp hi
    by_cases hij : i = j
    · rw [if_pos hij, hvi]
      simp
    · rw [if_neg hij, hvi]
      simp

lemma optimizePortfolio_constraints_congr (opt : QuantumPortfolioOptimizer)
    (assets : List Asset) (c1 c2 : Constraints)
    (hmin : effMinWeight c1 = effMinWeight c2)
    (hmax : effMaxWeight c1 = effMaxWeight c2) :
    optimizePortfolio opt assets c1 = optimizePortfolio opt assets c2 := by
  simp only [optimizePortfolio, quantumOptimization, hmin, hmax]

/-! Concrete inputs used by witnesses and counterexamples. -/

/-- A default-constructed optimizer: riskFreeRate 0.02, maxIterations 100,
tolerance 1e-6. -/
noncomputable def defaultOptimizer : QuantumPortfolioOptimizer :=
  mkQuantumPortfolioOptimizer none none

/-- The first two entries of the repository's `sampleAssets`. -/
noncomputable def sampleTwo : List Asset :=
  [{ symbol := "AAPL", name := "Apple Inc.", expectedReturn := 0.12,
     volatility := 0.25, price := 175.5 },
   { symbol := "GOOGL", name := "Alphabet Inc.", expectedReturn := 0.14,
     volatility := 0.28, price := 2750.0 }]

/-- The same two assets with different symbols, names and prices but the same
expected returns and volatilities. -/
noncomputable def sampleTwoRelabelled : List Asset :=
  [{ symbol := "AAPL2", name := "Apple duplicate", expectedReturn := 0.12,
     volatility := 0.25, price := 1 },
   { symbol := "GOOGL2", name := "Alphabet duplicate", expectedReturn := 0.14,
     volatility := 0.28, price := 2 }]

/-- Tight box constraints `{minWeight: 0.1, maxWeight: 0.4}`: with two assets the
renormalized weights cannot all respect the upper bound. -/
noncomputable def tightConstraints : Constraints := ⟨some 0.1, some 0.4⟩

/-- Two assets whose volatility is zero: the degenerate input of the spec's
`DegenerateVolatility` discussion. -/
noncomputable def degenerateAssets : List Asset :=
  [{ symbol := "Z1", name := "Zero vol 1", expectedReturn := 0.05,
     volatility := 0, price := 10 },
   { symbol := "Z2", name := "Zero vol 2", expectedReturn := 0.07,
     volatility := 0, price := 20 }]

/-! Theorems settling the specification claims. -/

/-- C1 (counterexample to the claim as stated).  On two assets whose volatility
is both zero, the portfolio volatility of the very first objective evaluation
(uniform weights 1/2) is exactly zero, yet `optimizePortfolio` raises no error
at all: it returns an `OptimizationResult` normally.  There is no
`DegenerateVolatility` signal anywhere in the code. -/
theorem degenerate_input_returns_result :
    portfolioVolatility (List.replicate 2 ((1 : ℝ) / 2))
      (calculateCovarianceMatrix degenerateAssets) = 0 ∧
    optimizePortfolio defaultOptimizer degenerateAssets ⟨none, none⟩ =
      Except.ok (quantumOptimization defaultOptimizer degenerateAssets ⟨none, none⟩) := by
  constructor
  · have hcov : calculateCovarianceMatrix degenerateAssets = [[0, 0], [0, 0]] := by
      simp [calculateCovarianceMatrix, degenerateAssets, List.range_succ]
    rw [hcov]
    have hvar : portfolioVariance (List.replicate 2 ((1 : ℝ) / 2)) [[0, 0], [0, 0]] = 0 := by
      simp [portfolioVariance, List.range_succ]
    rw [portfolioVolatility, hvar, Real.sqrt_zero]
  · exact optimizePortfolio_eq_ok defaultOptimizer degenerateAssets ⟨none, none⟩
      (by simp [degenerateAssets])

/-- C1 (amended).  The evaluator performs no degeneracy check: for any asset
list of length at least 2 — in particular two assets whose volatilities are
both zero, where the very first objective evaluation divides by a zero
portfolio volatility — `optimizePortfolio` signals nothing and returns an
`OptimizationResult`; the division is silently carried out (total real
division in this model, `NaN`/`Infinity` in JavaScript). -/
theorem no_degenerate_volatility_error (opt : QuantumPortfolioOptimizer)
    (a b : Asset) (cons : Constraints)
    (ha : a.volatility = 0) (hb : b.volatility = 0) :
    portfolioVolatility (List.replicate 2 ((1 : ℝ) / 2))
      (calculateCovarianceMatrix [a, b]) = 0 ∧
    optimizePortfolio opt [a, b] cons =
      Except.ok (quantumOptimization opt [a, b] cons) := by
  constructor
  · have hcov : calculateCovarianceMatrix [a, b] = [[0, 0], [0, 0]] := by
      simp [calculateCovarianceMatrix, List.range_succ, ha, hb]
    rw [hcov]
    have hvar : portfolioVariance (List.replicate 2 ((1 : ℝ) / 2)) [[0, 0], [0, 0]] = 0 := by
      simp [portfolioVariance, List.range_succ]
    rw [portfolioVolatility, hvar, Real.sqrt_zero]
  · exact optimizePortfolio_eq_ok opt [a, b] cons (by simp)

/-- Witness for C1's amended theorem at a concrete degenerate input. -/
theorem no_degenerate_volatility_error_witness :
    ({ symbol := "Z1", name := "Zero vol 1", expectedReturn := 0.05,
       volatility := 0, price := 10 } : Asset).volatility = 0 ∧
    ({ symbol := "Z2", name := "Zero vol 2", expectedReturn := 0.07,
       volatility := 0, price := 20 } : Asset).volatility = 0 ∧
    (portfolioVolatility (List.replicate 2 ((1 : ℝ) / 2))
      (calculateCovarianceMatrix degenerateAssets) = 0 ∧
     optimizePortfolio defaultOptimizer degenerateAssets ⟨some 0, some 0⟩ =
      Except.ok (quantumOptimization defaultOptimizer degenerateAssets ⟨some 0, some 0⟩)) :=
  ⟨rfl, rfl,
    no_degenerate_volatility_error defaultOptimizer _ _ ⟨some 0, some 0⟩ rfl rfl⟩

/-- C2 (counterexample to the claim as stated).  With the two sample assets
(volatilities 0.25 and 0.28, a valid input) and constraints
`{minWeight: 0.1, maxWeight: 0.4}` (so `minWeight ≤ maxWeight`), the weights
returned by `optimizePortfolio` cannot all lie below `maxWeight + 1e-6`: they
sum to 1, hence one of the two exceeds 0.5. -/
theorem box_constraint_violated :
    optimizePortfolio defaultOptimizer sampleTwo tightConstraints =
      Except.ok (quantumOptimization defaultOptimizer sampleTwo tightConstraints) ∧
    ¬ (∀ i, i < (quantumOptimization defaultOptimizer sampleTwo
          tightConstraints).optimalWeights.length →
        (quantumOptimization defaultOptimizer sampleTwo
          tightConstraints).optimalWeights.getD i 0 ≤
          effMaxWeight tightConstraints + 1e-6) := by
  have hn : 2 ≤ sampleTwo.length := by simp [sampleTwo]
  have hmin : 0 < effMinWeight tightConstraints := by
    norm_num [effMinWeight, tightConstraints]
  constructor
  · exact optimizePortfolio_eq_ok defaultOptimizer sampleTwo tightConstraints hn
  · intro hall
    obtain ⟨hsum, hlen⟩ :=
      quantumOptimization_sum_len defaultOptimizer sampleTwo tightConstraints hn hmin
    have hlen2 : (quantumOptimization defaultOptimizer sampleTwo
        tightConstraints).optimalWeights.length = 2 := by
      rw [hlen]; simp [sampleTwo]
    have h0 := hall 0 (by omega)
    have h1 := hall 1 (by omega)
    have hmax : effMaxWeight tightConstraints = 0.4 := by
      norm_num [effMaxWeight, tightConstraints]
    have hsplit := sum_eq_getD_of_length_two _ hlen2
    rw [hsplit] at hsum
    rw [hmax] at h0 h1
    norm_num at h0 h1 hsum
    linarith

/-- C2 (amended).  For every valid input (at least 2 assets) and constraints
whose effective `minWeight` is positive, the `optimalWeights` of the returned
result sum to exactly 1 (each loop pass ends by dividing by the candidate sum,
which clipping keeps at least `n * minWeight > 0`) and are positionally aligned
with the asset list; the per-element box bound, however, is NOT guaranteed:
renormalization after clipping can push a weight past `maxWeight` by far more
than 1e-6 (see the counterexample). -/
theorem optimalWeights_sum_one (opt : QuantumPortfolioOptimizer) (assets : List Asset)
    (cons : Constraints) (hn : 2 ≤ assets.length) (hmin : 0 < effMinWeight cons) :
    (quantumOptimization opt assets cons).optimalWeights.sum = 1 ∧
    (quantumOptimization opt assets cons).optimalWeights.length = assets.length :=
  quantumOptimization_sum_len opt assets cons hn hmin

/-- Witness for C2's amended theorem at a concrete input. -/
theorem optimalWeights_sum_one_witness :
    (2 ≤ sampleTwo.length ∧ 0 < effMinWeight tightConstraints) ∧
    ((quantumOptimization defaultOptimizer sampleTwo tightConstraints).optimalWeights.sum = 1 ∧
     (quantumOptimization defaultOptimizer sampleTwo
        tightConstraints).optimalWeights.length = sampleTwo.length) :=
  ⟨⟨by simp [sampleTwo], by norm_num [effMinWeight, tightConstraints]⟩,
   optimalWeights_sum_one defaultOptimizer sampleTwo tightConstraints
     (by simp [sampleTwo]) (by norm_num [effMinWeight, tightConstraints])⟩

/-- C3 (confirmed).  `optimizePortfolio` fails with the `InvalidInput` error
exactly when fewer than 2 assets are supplied, and with 2 or more assets it
returns the `OptimizationResult` of `quantumOptimization`. -/
theorem invalidInput_iff_lt_two (opt : QuantumPortfolioOptimizer)
    (assets : List Asset) (cons : Constraints) :
    (optimizePortfolio opt assets cons =
        Except.error (OptimizerError.invalidInput
          "Portfolio must contain at least 2 assets") ↔
      assets.length < 2) ∧
    (2 ≤ assets.length →
      optimizePortfolio opt assets cons =
        Except.ok (quantumOptimization opt assets cons)) := by
  constructor
  · constructor
    · intro herr
      by_contra hge
      rw [optimizePortfolio_eq_ok opt assets cons (Nat.not_lt.mp hge)] at herr
      exact Except.noConfusion herr
    · intro hlt
      rw [optimizePortfolio, if_pos hlt]
  · exact optimizePortfolio_eq_ok opt assets cons

/-- Witness for C3 at concrete inputs: a two-asset list is accepted. -/
theorem invalidInput_iff_lt_two_witness :
    2 ≤ sampleTwo.length ∧
    optimizePortfolio defaultOptimizer sampleTwo ⟨none, none⟩ =
      Except.ok (quantumOptimization defaultOptimizer sampleTwo ⟨none, none⟩) :=
  ⟨by simp [sampleTwo],
   (invalidInput_iff_lt_two defaultOptimizer sampleTwo ⟨none, none⟩).2
     (by simp [sampleTwo])⟩

/-- C4 (confirmed).  In every result of `quantumOptimization` (hence of
`optimizePortfolio`), `iterations` equals the length of `convergenceData`,
`iterations` never exceeds `maxIterations`, and `convergenceData` is precisely
the positive Sharpe ratios (negated objective values) of the weight vectors at
the start of each executed loop pass, in iteration order — including the pass
that triggers the convergence break, whose entry was pushed before the break
test. -/
theorem convergence_trace_exact (opt : QuantumPortfolioOptimizer) (assets : List Asset)
    (cons : Constraints) :
    (quantumOptimization opt assets cons).iterations =
      (quantumOptimization opt assets cons).convergenceData.length ∧
    (quantumOptimization opt assets cons).iterations ≤ opt.maxIterations ∧
    (quantumOptimization opt assets cons).convergenceData =
      (List.range (quantumOptimization opt assets cons).iterations).map
        fun k => -(objectiveFunction opt.riskFreeRate (trajectory opt assets cons k)
          (assets.map Asset.expectedReturn) (calculateCovarianceMatrix assets)) := by
  refine ⟨rfl, ?_, ?_⟩
  · exact optimizationLoop_len opt.riskFreeRate opt.tolerance
      (assets.map Asset.expectedReturn) (calculateCovarianceMatrix assets)
      (effMinWeight cons) (effMaxWeight cons) opt.maxIterations 0
      (List.replicate assets.length ((1 : ℝ) / assets.length))
  · exact optimizationLoop_snd opt.riskFreeRate opt.tolerance
      (assets.map Asset.expectedReturn) (calculateCovarianceMatrix assets)
      (effMinWeight cons) (effMaxWeight cons) opt.maxIterations 0
      (List.replicate assets.length ((1 : ℝ) / assets.length))

/-- C5 (confirmed).  The optimizer trajectory starts at the uniform vector
`1/n` and each pass maps weights `w` to the clipped gradient step
`clip(w_i - learningRate * g_i, minWeight, maxWeight)` with
`learningRate = 0.01 * exp(-iteration/50)`, renormalized by dividing by the
candidate sum with no re-clip afterwards; the returned `optimalWeights` are
exactly the trajectory after `iterations` passes. -/
theorem optimizer_step_formula (opt : QuantumPortfolioOptimizer) (assets : List Asset)
    (cons : Constraints) :
    trajectory opt assets cons 0 =
      List.replicate assets.length ((1 : ℝ) / assets.length) ∧
    (∀ k : ℕ,
      trajectory opt assets cons (k + 1) =
        (fun w : List ℝ =>
          (fun candidate : List ℝ => candidate.map fun c => c / candidate.sum)
            ((List.range w.length).map fun i =>
              max (effMinWeight cons) (min (effMaxWeight cons)
                (w.getD i 0 - (0.01 * Real.exp (-(k : ℝ) / 50)) *
                  (calculateGradients opt.riskFreeRate w
                    (assets.map Asset.expectedReturn)
                    (calculateCovarianceMatrix assets)).getD i 0))))
          (trajectory opt assets cons k)) ∧
    (quantumOptimization opt assets cons).optimalWeights =
      trajectory opt assets cons (quantumOptimization opt assets cons).iterations := by
  refine ⟨rfl, ?_, ?_⟩
  · intro k
    have h1 := weightsAfter_succ_right opt.riskFreeRate
      (assets.map Asset.expectedReturn) (calculateCovarianceMatrix assets)
      (effMinWeight cons) (effMaxWeight cons) 0
      (List.replicate assets.length ((1 : ℝ) / assets.length)) k
    rw [Nat.zero_add] at h1
    exact h1
  · exact optimizationLoop_fst opt.riskFreeRate opt.tolerance
      (assets.map Asset.expectedReturn) (calculateCovarianceMatrix assets)
      (effMinWeight cons) (effMaxWeight cons) opt.maxIterations 0
      (List.replicate assets.length ((1 : ℝ) / assets.length))

/-- C6 (confirmed).  For every weight vector whose portfolio volatility is
nonzero, the objective is the negated Sharpe ratio
`-(R - riskFreeRate) / sigma`, and gradient component `i` is
`-(r_i * sigma - (R - riskFreeRate) * dsigma_i) / sigma^2` with
`dsigma_i = (2 * sum_j w_j * cov[i][j]) / (2 * sigma)`. -/
theorem objective_gradient_formula (rf : ℝ) (weights rets : List ℝ)
    (cov : List (List ℝ)) (hvol : portfolioVolatility weights cov ≠ 0) :
    objectiveFunction rf weights rets cov =
      -((portfolioReturn weights rets - rf) / portfolioVolatility weights cov) ∧
    calculateGradients rf weights rets cov =
      ((List.range weights.length).map fun i =>
        -((rets.getD i 0 * portfolioVolatility weights cov -
            (portfolioReturn weights rets - rf) *
              ((2 * ((List.range weights.length).map fun j =>
                  weights.getD j 0 * (cov.getD i []).getD j 0).sum) /
                (2 * portfolioVolatility weights cov))) /
          portfolioVolatility weights cov ^ 2)) := by
  refine ⟨rfl, ?_⟩
  simp only [calculateGradients]
  apply List.map_congr_left
  intro i _
  have hsum : ((List.range weights.length).map fun j =>
      2 * weights.getD j 0 * (cov.getD i []).getD j 0).sum =
      2 * ((List.range weights.length).map fun j =>
        weights.getD j 0 * (cov.getD i []).getD j 0).sum := by
    simpa [mul_assoc] using List.sum_map_mul_left (List.range weights.length)
      (fun j => weights.getD j 0 * (cov.getD i []).getD j 0) 2
  rw [hsum]

/-- Witness for C6 at a concrete input with nonzero portfolio volatility. -/
theorem objective_gradient_formula_witness :
    portfolioVolatility [(1 : ℝ), 0] [[1, 0], [0, 1]] ≠ 0 ∧
    (objectiveFunction 0 [(1 : ℝ), 0] [1, 1] [[1, 0], [0, 1]] =
      -((portfolioReturn [(1 : ℝ), 0] [1, 1] - 0) /
        portfolioVolatility [(1 : ℝ), 0] [[1, 0], [0, 1]]) ∧
     calculateGradients 0 [(1 : ℝ), 0] [1, 1] [[1, 0], [0, 1]] =
      ((List.range ([(1 : ℝ), 0] : List ℝ).length).map fun i =>
        -((([(1 : ℝ), 1] : List ℝ).getD i 0 *
              portfolioVolatility [(1 : ℝ), 0] [[1, 0], [0, 1]] -
            (portfolioReturn [(1 : ℝ), 0] [1, 1] - 0) *
              ((2 * ((List.range ([(1 : ℝ), 0] : List ℝ).length).map fun j =>
                  ([(1 : ℝ), 0] : List ℝ).getD j 0 *
                    (([[1, 0], [0, 1]] : List (List ℝ)).getD i []).getD j 0).sum) /
                (2 * portfolioVolatility [(1 : ℝ), 0] [[1, 0], [0, 1]]))) /
          portfolioVolatility [(1 : ℝ), 0] [[1, 0], [0, 1]] ^ 2))) := by
  have hvol : portfolioVolatility [(1 : ℝ), 0] [[1, 0], [0, 1]] ≠ 0 := by
    have hvar : portfolioVariance [(1 : ℝ), 0] [[1, 0], [0, 1]] = 1 := by
      simp [portfolioVariance, List.range_succ]
    rw [portfolioVolatility, hvar, Real.sqrt_one]
    norm_num
  exact ⟨hvol, objective_gradient_formula 0 [(1 : ℝ), 0] [1, 1] [[1, 0], [0, 1]] hvol⟩

/-- C7 (confirmed).  For every non-empty asset list the covariance matrix is
n×n, entry `(i, j)` is `volatility_i^2` on the diagonal and
`0.3 * volatility_i * volatility_j` off it, and the matrix is symmetric. -/
theorem covariance_matrix_spec (assets : List Asset) (hne : assets ≠ []) :
    (calculateCovarianceMatrix assets).length = assets.length ∧
    (∀ row ∈ calculateCovarianceMatrix assets, row.length = assets.length) ∧
    (∀ i j : ℕ, ((calculateCovarianceMatrix assets).getD i []).getD j 0 =
        if i = j then ((assets.map Asset.volatility).getD i 0) ^ 2
        else 0.3 * (assets.map Asset.volatility).getD i 0 *
          (assets.map Asset.volatility).getD j 0) ∧
    (∀ i j : ℕ, ((calculateCovarianceMatrix assets).getD i []).getD j 0 =
        ((calculateCovarianceMatrix assets).getD j []).getD i 0) := by
  refine ⟨?_, ?_, covariance_entry assets, ?_⟩
  · simp [calculateCovarianceMatrix]
  · intro row hrow
    simp only [calculateCovarianceMatrix, List.mem_map] at hrow
    obtain ⟨i, _, rfl⟩ := hrow
    simp
  · intro i j
    rw [covariance_entry, covariance_entry]
    by_cases hij : i = j
    · rw [if_pos hij, if_pos hij.symm, hij]
    · rw [if_neg hij, if_neg (Ne.symm hij)]
      ring

/-- Witness for C7 at a concrete non-empty asset list. -/
theorem covariance_matrix_spec_witness :
    sampleTwo ≠ [] ∧
    ((calculateCovarianceMatrix sampleTwo).length = sampleTwo.length ∧
     (∀ row ∈ calculateCovarianceMatrix sampleTwo, row.length = sampleTwo.length) ∧
     (∀ i j : ℕ, ((calculateCovarianceMatrix sampleTwo).getD i []).getD j 0 =
        if i = j then ((sampleTwo.map Asset.volatility).getD i 0) ^ 2
        else 0.3 * (sampleTwo.map Asset.volatility).getD i 0 *
          (sampleTwo.map Asset.volatility).getD j 0) ∧
     (∀ i j : ℕ, ((calculateCovarianceMatrix sampleTwo).getD i []).getD j 0 =
        ((calculateCovarianceMatrix sampleTwo).getD j []).getD i 0)) :=
  ⟨by simp [sampleTwo], covariance_matrix_spec sampleTwo (by simp [sampleTwo])⟩

/-- C8 (confirmed).  `optimizePortfolio` is a pure function (two calls on the
same arguments give the same result) and its result depends only on each
asset's `expectedReturn` and `volatility` together with the constraints: asset
lists agreeing on those two projections give identical results, whatever their
symbols, names and prices. -/
theorem optimizer_ignores_labels (opt : QuantumPortfolioOptimizer)
    (a1 a2 : List Asset) (cons : Constraints)
    (h : a1.map (fun a => (a.expectedReturn, a.volatility)) =
      a2.map (fun a => (a.expectedReturn, a.volatility))) :
    optimizePortfolio opt a1 cons = optimizePortfolio opt a1 cons ∧
    optimizePortfolio opt a1 cons = optimizePortfolio opt a2 cons := by
  have hret : a1.map Asset.expectedReturn = a2.map Asset.expectedReturn := by
    have h2 := congrArg (List.map Prod.fst) h
    simpa [List.map_map, Function.comp_def] using h2
  have hvol : a1.map Asset.volatility = a2.map Asset.volatility := by
    have h2 := congrArg (List.map Prod.snd) h
    simpa [List.map_map, Function.comp_def] using h2
  have hlen : a1.length = a2.length := by
    simpa using congrArg List.length h
  refine ⟨rfl, ?_⟩
  have hcov : calculateCovarianceMatrix a1 = calculateCovarianceMatrix a2 := by
    simp only [calculateCovarianceMatrix, hvol, hlen]
  simp only [optimizePortfolio, quantumOptimization, hret, hcov, hlen]

/-- Witness for C8: the two sample lists differ in symbol, name and price but
agree on returns and volatilities, and get identical results. -/
theorem optimizer_ignores_labels_witness :
    sampleTwo.map (fun a => (a.expectedReturn, a.volatility)) =
      sampleTwoRelabelled.map (fun a => (a.expectedReturn, a.volatility)) ∧
    (optimizePortfolio defaultOptimizer sampleTwo ⟨none, none⟩ =
      optimizePortfolio defaultOptimizer sampleTwo ⟨none, none⟩ ∧
     optimizePortfolio defaultOptimizer sampleTwo ⟨none, none⟩ =
      optimizePortfolio defaultOptimizer sampleTwoRelabelled ⟨none, none⟩) :=
  ⟨rfl, optimizer_ignores_labels defaultOptimizer sampleTwo sampleTwoRelabelled
    ⟨none, none⟩ rfl⟩

/-- C9 (confirmed).  `calculatePortfolioMetrics` is a pure reporting function:
repeated calls agree, and for an arbitrary weight vector — with no requirement
that it sum to 1 or satisfy any box constraint — it returns exactly the
portfolio return, the portfolio volatility and the (unnegated) Sharpe ratio. -/
theorem metrics_pure_total (opt : QuantumPortfolioOptimizer) (assets : List Asset)
    (weights : List ℝ) :
    calculatePortfolioMetrics opt assets weights =
      calculatePortfolioMetrics opt assets weights ∧
    (calculatePortfolioMetrics opt assets weights).expectedReturn =
      portfolioReturn weights (assets.map Asset.expectedReturn) ∧
    (calculatePortfolioMetrics opt assets weights).volatility =
      portfolioVolatility weights (calculateCovarianceMatrix assets) ∧
    (calculatePortfolioMetrics opt assets weights).sharpeRatio =
      (portfolioReturn weights (assets.map Asset.expectedReturn) - opt.riskFreeRate) /
        portfolioVolatility weights (calculateCovarianceMatrix assets) :=
  ⟨rfl, rfl, rfl, rfl⟩

/-- C10 (confirmed).  Defaulting is by JavaScript truthiness, not absence: a
`maxWeight` of 0 behaves exactly like 1 (the default), a `minWeight` of 0
behaves like an absent field (0), a constructor `riskFreeRate` of 0 leaves the
default 0.02, and a constructor `maxIterations` of 0 leaves the default 100. -/
theorem truthy_defaults :
    (∀ (opt : QuantumPortfolioOptimizer) (assets : List Asset) (mn : Option ℝ),
      optimizePortfolio opt assets ⟨mn, some 0⟩ =
        optimizePortfolio opt assets ⟨mn, some 1⟩) ∧
    (∀ (opt : QuantumPortfolioOptimizer) (assets : List Asset) (mx : Option ℝ),
      optimizePortfolio opt assets ⟨some 0, mx⟩ =
        optimizePortfolio opt assets ⟨none, mx⟩) ∧
    (∀ mi : Option ℕ, (mkQuantumPortfolioOptimizer (some 0) mi).riskFreeRate = 0.02) ∧
    (∀ rf : Option ℝ, (mkQuantumPortfolioOptimizer rf (some 0)).maxIterations = 100) := by
  refine ⟨?_, ?_, ?_, ?_⟩
  · intro opt assets mn
    apply optimizePortfolio_constraints_congr
    · rfl
    · norm_num [effMaxWeight]
  · intro opt assets mx
    apply optimizePortfolio_constraints_congr
    · norm_num [effMinWeight]
    · rfl
  · intro mi
    norm_num [mkQuantumPortfolioOptimizer]
  · intro rf
    norm_num [mkQuantumPortfolioOptimizer]

end QuantumApp
